import Mathlib

/-!
Verification of the `terraform-industry/gen3_test` electrolyzer test-rig
repository: a shallow embedding of the PSU Modbus client, the GUI relay
panel, the hardware HTTP bridges (ring buffers, batched InfluxDB writes,
HTTP endpoints, retry loops), the BGA response parser, the NI analog
engineering-unit conversion, and the CSV export pipeline, with theorems
checking the natural-language specification against the code.

Machine floats in the Python source are modelled as rationals (`ℚ`);
Python `int()` truncation toward zero is modelled by `pyInt`.
-/

/-- Python `int()` applied to a float: truncation toward zero. -/
def pyInt (q : ℚ) : ℤ := if 0 ≤ q then ⌊q⌋ else ⌈q⌉

namespace PSU

/-! ### `MK1_AWE/gui/psu_rtu_client.py`
Safety limits and `PSUClient.set_voltage_current`.  A Modbus register
write `self.psu.write_register(reg, val)` is modelled as a `RegWrite`
record; `set_voltage_current` returns the sequence of writes it issues. -/

def VOLTAGE_MIN : ℚ := 100
def VOLTAGE_MAX : ℚ := 900
def CURRENT_MIN : ℚ := 1
def CURRENT_MAX : ℚ := 100

structure RegWrite where
  reg : ℕ
  val : ℤ
deriving DecidableEq, Repr

/-- `PSUClient.set_voltage_current` (psu_rtu_client.py lines 53-100):
below-minimum inputs are replaced by the safe state (0 V, 0 A, output
OFF); otherwise voltage and current are clamped to the maxima and the
output is enabled.  The three register writes (0x0101 voltage, 0x0102
current, 0x0103 enable) are issued with `int(value / 0.1)` scaling. -/
def set_voltage_current (voltage current : ℚ) : List RegWrite :=
  let p : ℚ × ℚ × ℤ :=
    if voltage < VOLTAGE_MIN ∨ current < CURRENT_MIN then
      (0, 0, 0)
    else
      (min voltage VOLTAGE_MAX, min current CURRENT_MAX, 1)
  [⟨0x0101, pyInt (p.1 / (0.1 : ℚ))⟩,
   ⟨0x0102, pyInt (p.2.1 / (0.1 : ℚ))⟩,
   ⟨0x0103, p.2.2⟩]

end PSU

namespace Relay

/-! ### `MK1_AWE/gui/widgets/relay_panel.py`
`RelayPanel._toggle_relay` calls `ni_relay_client.set_relay`. -/

structure RelayWrite where
  relay : String
  state : Bool
deriving DecidableEq, Repr

/-- Modelled from the spec: the module `ni_relay_client` imported by
`relay_panel.py` is not part of the repository snapshot (only its
callers are).  Per the spec a relay toggle "call[s] the right register
write", so `set_relay relay_id state` issues the register write for the
named relay with the requested boolean state. -/
def set_relay (relay_id : String) (state : Bool) : RelayWrite :=
  ⟨relay_id, state⟩

/-- `RelayPanel._toggle_relay` (relay_panel.py lines 135-140): calls
`set_relay(relay_id, state)`.  Returns the list of issued writes. -/
def toggle_relay (relay_id : String) (state : Bool) : List RelayWrite :=
  [set_relay relay_id state]

/-- The sixteen relay ids RL01..RL16 handled by the relay panel. -/
def relayIds : List String :=
  ["RL01", "RL02", "RL03", "RL04", "RL05", "RL06", "RL07", "RL08",
   "RL09", "RL10", "RL11", "RL12", "RL13", "RL14", "RL15", "RL16"]

end Relay

namespace Bridge

/-! ### Hardware HTTP bridges — shared poll-loop model
`MK1_AWE/hdw/BGA244_http_1.py`, `psu_http.py`, `pico_tc08_http.py`,
`ni_analog_http.py`.  Each bridge keeps a ring buffer
`sample_buffer = deque(maxlen = SAMPLE_RATE * BUFFER_SECONDS)`, a
`pending_samples` list flushed to InfluxDB in batches of
`write_batch_size = SAMPLE_RATE`, and a `device_online` flag. -/

variable {σ : Type}

/-- `collections.deque(maxlen=m).append(x)`: appending to a full deque
discards elements from the opposite end to stay within `maxlen`. -/
def dequeAppend (maxlen : ℕ) (buf : List σ) (x : σ) : List σ :=
  if maxlen < buf.length + 1 then
    (buf ++ [x]).drop (buf.length + 1 - maxlen)
  else
    buf ++ [x]

/-- State shared by the poll loop and HTTP handlers of one bridge. -/
structure BridgeState (σ : Type) where
  sample_buffer : List σ
  pending_samples : List σ
  written_batches : List (List σ)
  device_online : Bool
deriving DecidableEq

/-- One iteration of the single-sample poll loops
(`poll_bga` in BGA244_http_1.py lines 171-215, `read_psu_data` in
psu_http.py lines 168-239, `read_thermocouples` in pico_tc08_http.py
lines 214-271): a valid reading is appended to `pending_samples` and to
the ring buffer, and the pending list is flushed to InfluxDB once it
reaches `write_batch_size = SAMPLE_RATE`; an all-`None` reading (BGA
lines 189-190) only marks the device offline. -/
def pollIter (S B : ℕ) (st : BridgeState σ) (reading : Option σ) : BridgeState σ :=
  match reading with
  | none => { st with device_online := false }
  | some s =>
      let pending := st.pending_samples ++ [s]
      let buffer := dequeAppend (S * B) st.sample_buffer s
      if S ≤ pending.length then
        { sample_buffer := buffer, pending_samples := [],
          written_batches := st.written_batches ++ [pending],
          device_online := true }
      else
        { sample_buffer := buffer, pending_samples := pending,
          written_batches := st.written_batches,
          device_online := true }

/-- Appending one sample of an NI batch read to the pending list and the
ring buffer (`read_analog_inputs`, ni_analog_http.py lines 211-253). -/
def niAppendStep (S B : ℕ) (acc : BridgeState σ) (s : σ) : BridgeState σ :=
  { acc with pending_samples := acc.pending_samples ++ [s],
             sample_buffer := dequeAppend (S * B) acc.sample_buffer s }

/-- One iteration of the NI analog read loop (ni_analog_http.py lines
201-258): every sample of the batch read is appended to
`pending_samples` and the ring buffer, then the pending list is flushed
once if it reached `write_batch_size = SAMPLE_RATE`. -/
def pollIterNI (S B : ℕ) (st : BridgeState σ) (batch : List σ) : BridgeState σ :=
  let st1 := batch.foldl (niAppendStep S B) st
  if S ≤ st1.pending_samples.length then
    { st1 with pending_samples := [],
               written_batches := st1.written_batches ++ [st1.pending_samples] }
  else st1

end Bridge

namespace Bridge

/-! ### /metrics handlers of the buffer-based bridges
Lines of the InfluxDB line-protocol output are modelled as structured
records (measurement tags, present fields, timestamp); `%.3f`-style
float rendering is elided, the per-point and per-field structure is
kept exactly. -/

structure BGASample where
  timestamp_ns : ℤ
  primary_gas : String
  secondary_gas : String
  purity : Option ℚ
  uncertainty : Option ℚ
  temperature : Option ℚ
  pressure : Option ℚ
deriving DecidableEq, Repr

structure BGALine where
  primary_gas : String
  secondary_gas : String
  fields : List (String × ℚ)
  timestamp_ns : ℤ
deriving DecidableEq, Repr

/-- `if sample["x"] is not None: fields.append(...)`. -/
def optField (fname : String) (v : Option ℚ) : List (String × ℚ) :=
  match v with
  | some x => [(fname, x)]
  | none => []

/-- Field list of one BGA metrics line (BGA244_http_1.py lines 261-269). -/
def bgaFields (s : BGASample) : List (String × ℚ) :=
  optField "purity" s.purity ++ optField "uncertainty" s.uncertainty ++
    optField "temperature" s.temperature ++ optField "pressure" s.pressure

/-- One sample's contribution to the BGA /metrics output
(BGA244_http_1.py lines 271-273): a line is emitted only when at least
one numeric field is present. -/
def bgaLine (s : BGASample) : Option BGALine :=
  if bgaFields s = [] then none
  else some ⟨s.primary_gas, s.secondary_gas, bgaFields s, s.timestamp_ns⟩

/-- `MetricsHandler.send_metrics` of BGA244_http_1.py (lines 248-278):
204 when offline or empty, otherwise one line per buffered sample with
a nonempty field list; the buffer is only copied (`list(sample_buffer)`). -/
def bga1_send_metrics (st : BridgeState BGASample) :
    Option (List BGALine) × BridgeState BGASample :=
  if st.device_online = false ∨ st.sample_buffer.length = 0 then (none, st)
  else (some (st.sample_buffer.filterMap bgaLine), st)

/-- `MetricsHandler.send_metrics` of BGA244_http_3.py (lines 160-194):
same output, but the handler grabs all buffered samples and then
CLEARS the buffer (`sample_buffer.clear()`). -/
def bga3_send_metrics (st : BridgeState BGASample) :
    Option (List BGALine) × BridgeState BGASample :=
  if st.device_online = false ∨ st.sample_buffer.length = 0 then (none, st)
  else (some (st.sample_buffer.filterMap bgaLine),
        { st with sample_buffer := [] })

structure PSUReadings where
  voltage : ℚ
  current : ℚ
  power : ℚ
  capacity : ℚ
  runtime : ℤ
  battery_v : ℚ
  sys_fault : ℤ
  mod_fault : ℤ
  temperature : ℤ
  status : ℤ
  set_voltage_rb : ℚ
  set_current_rb : ℚ
  output_enable : ℤ
deriving DecidableEq, Repr

structure PSUSample where
  timestamp_ns : ℤ
  readings : PSUReadings
deriving DecidableEq, Repr

structure PSULine where
  readings : PSUReadings
  timestamp_ns : ℤ
deriving DecidableEq, Repr

/-- Flask `metrics` of psu_http.py (lines 248-283): 503 when offline or
the buffer is empty; otherwise exactly one line per buffered sample
carrying all 13 readings, buffer untouched. -/
def psu_metrics (st : BridgeState PSUSample) :
    Option (List PSULine) × BridgeState PSUSample :=
  if st.device_online = false then (none, st)
  else if st.sample_buffer.length = 0 then (none, st)
  else (some (st.sample_buffer.map fun s => ⟨s.readings, s.timestamp_ns⟩), st)

structure NIReading where
  value : ℚ
  raw_ma : ℚ
deriving DecidableEq, Repr

structure NISample where
  timestamp_ns : ℤ
  readings : List (String × NIReading)
deriving DecidableEq, Repr

structure NILine where
  channel : String
  value : ℚ
  raw_ma : ℚ
  timestamp_ns : ℤ
deriving DecidableEq, Repr

/-- Flask `metrics` of ni_analog_http.py (lines 267-290): one line per
channel per buffered sample, buffer untouched ("Return copy of buffer -
don't clear"). -/
def ni_metrics (st : BridgeState NISample) :
    Option (List NILine) × BridgeState NISample :=
  if st.device_online = false then (none, st)
  else if st.sample_buffer.length = 0 then (none, st)
  else (some (st.sample_buffer.flatMap fun s =>
          s.readings.map fun p => ⟨p.1, p.2.value, p.2.raw_ma, s.timestamp_ns⟩), st)

structure TCReading where
  value : Option ℚ
  tcType : String
  valid : Bool
deriving DecidableEq, Repr

structure TCSample where
  timestamp_ns : ℤ
  readings : List (String × TCReading)
deriving DecidableEq, Repr

structure TCLine where
  channel : String
  tcType : String
  temp_c : ℚ
  timestamp_ns : ℤ
deriving DecidableEq, Repr

/-- One channel's contribution to the TC-08 /metrics output
(pico_tc08_http.py lines 305-308): a line only `if data['valid']`. -/
def tcLine (timestamp_ns : ℤ) (p : String × TCReading) : Option TCLine :=
  if p.2.valid then
    match p.2.value with
    | some v => some ⟨p.1, p.2.tcType, v, timestamp_ns⟩
    | none => none
  else none

/-- Flask `metrics` of pico_tc08_http.py (lines 289-311): one line per
valid channel reading per buffered sample, buffer untouched. -/
def tc08_metrics (st : BridgeState TCSample) :
    Option (List TCLine) × BridgeState TCSample :=
  if st.device_online = false then (none, st)
  else if st.sample_buffer.length = 0 then (none, st)
  else (some (st.sample_buffer.flatMap fun s =>
          s.readings.filterMap (tcLine s.timestamp_ns)), st)

/-- An online BGA03 bridge state holding one buffered sample. -/
def bga3CounterState : BridgeState BGASample :=
  ⟨[⟨0, "H2", "O2", some 99, some 1, some 25, some 1⟩], [], [], true⟩

end Bridge

namespace Routes

/-! ### HTTP endpoints of the six hardware bridges
Translated from the `do_GET`/`do_POST` dispatch of the
`BaseHTTPRequestHandler` bridges (BGA244_http_1/2/3.py) and the Flask
`@app.route` registrations (psu_http.py, ni_analog_http.py,
pico_tc08_http.py).  `handles m p = true` iff the bridge answers method
`m` on path `p` with something other than 404. -/

inductive Method
  | get
  | post
deriving DecidableEq, Repr, Fintype

/-- BGA244_http_1.py lines 227-246. -/
def bga1_handles : Method → String → Bool
  | .get, p => p == "/metrics" || p == "/health"
  | .post, p => p == "/command"

/-- BGA244_http_2.py lines 116-137 (no /health route). -/
def bga2_handles : Method → String → Bool
  | .get, p => p == "/metrics"
  | .post, p => p == "/command"

/-- BGA244_http_3.py lines 137-158. -/
def bga3_handles : Method → String → Bool
  | .get, p => p == "/metrics" || p == "/health"
  | .post, p => p == "/command"

/-- psu_http.py lines 248-326: Flask routes /metrics, /health, /command. -/
def psu_handles : Method → String → Bool
  | .get, p => p == "/metrics" || p == "/health"
  | .post, p => p == "/command"

/-- ni_analog_http.py lines 267-315: Flask routes /metrics, /health. -/
def ni_handles : Method → String → Bool
  | .get, p => p == "/metrics" || p == "/health"
  | .post, _ => false

/-- pico_tc08_http.py lines 289-336: Flask routes /metrics, /health. -/
def tc08_handles : Method → String → Bool
  | .get, p => p == "/metrics" || p == "/health"
  | .post, _ => false

structure HttpBridge where
  name : String
  handles : Method → String → Bool
  endpoints : List String

def BGA244_http_1 : HttpBridge :=
  ⟨"BGA244_http_1", bga1_handles, ["/metrics", "/health", "/command"]⟩

def BGA244_http_2 : HttpBridge :=
  ⟨"BGA244_http_2", bga2_handles, ["/metrics", "/command"]⟩

def BGA244_http_3 : HttpBridge :=
  ⟨"BGA244_http_3", bga3_handles, ["/metrics", "/health", "/command"]⟩

def psu_http : HttpBridge :=
  ⟨"psu_http", psu_handles, ["/metrics", "/health", "/command"]⟩

def ni_analog_http : HttpBridge :=
  ⟨"ni_analog_http", ni_handles, ["/metrics", "/health"]⟩

def pico_tc08_http : HttpBridge :=
  ⟨"pico_tc08_http", tc08_handles, ["/metrics", "/health"]⟩

/-- The hardware bridges of `MK1_AWE/hdw/`. -/
def bridges : List HttpBridge :=
  [BGA244_http_1, BGA244_http_2, BGA244_http_3,
   psu_http, ni_analog_http, pico_tc08_http]

end Routes

namespace Retry

/-! ### Retry loops of the bridge poll threads
`poll_bga` (BGA244_http_1.py lines 165-221), `read_psu_data`
(psu_http.py lines 155-245), `read_thermocouples` (pico_tc08_http.py
lines 186-286), `read_analog_inputs` (ni_analog_http.py lines 164-264):
an outer `while True:` wraps a `try:` connect-then-poll block whose
`except:` sets `device_online = False`, sleeps `RECONNECT_DELAY`
seconds, and loops back to retry the connection. -/

/-- `RECONNECT_DELAY = 5` in every bridge file. -/
def RECONNECT_DELAY : ℕ := 5

inductive Phase
  | connecting
  | polling
  | backoff
deriving DecidableEq, Repr

/-- Position in the retry loop: the current phase, the `device_online`
flag, and the seconds the loop was told to sleep before reconnecting. -/
structure LoopState where
  phase : Phase
  device_online : Bool
  wait_s : ℕ
deriving DecidableEq, Repr

/-- Outcome of one vendor interaction or timer event visible to the
loop body. -/
inductive VendorEvent
  | connectOk
  | readOk
  | vendorErr
  | delayElapsed
deriving DecidableEq, Repr

/-- One transition of the `while True: try/except` retry loop.
Every vendor exception is caught by the `except:` block, which sets
`device_online = False` and schedules a `RECONNECT_DELAY` sleep —
it never propagates, hence `Except.ok` on every input.  After the
sleep the loop retries the connection.  `onlineOnConnect` is true for
the BGA bridges (they set `device_online = True` right after the
serial port opens) and false for the PSU/TC-08 style bridges (they
flip it only after the first successful vendor read). -/
def retryStep (onlineOnConnect : Bool) :
    LoopState → VendorEvent → Except String LoopState
  | _, .vendorErr => .ok ⟨.backoff, false, RECONNECT_DELAY⟩
  | ⟨.backoff, o, _⟩, .delayElapsed => .ok ⟨.connecting, o, 0⟩
  | ⟨.connecting, o, _⟩, .connectOk =>
      .ok ⟨.polling, if onlineOnConnect then true else o, 0⟩
  | ⟨.polling, _, w⟩, .readOk => .ok ⟨.polling, true, w⟩
  | st, _ => .ok st

end Retry

namespace BGAParse

/-! ### `get_num` — BGA response parsing
BGA244_http_1.py lines 35 and 139-151 (identical copies in
BGA244_http_2.py and BGA244_http_3.py).  Python strings are modelled as
`List Char`; Python `float()` is a parameter `pf` of the scan. -/

/-- Overload sentinel `OVERLOAD = 9.9E37` (line 35). -/
def OVERLOAD : ℚ := 9.9e37

/-- `text.replace('%', '')`. -/
def removePercent (s : List Char) : List Char :=
  s.filter (fun c => c ≠ '%')

/-- Python `str.split()` with no arguments: split on whitespace runs,
discarding empty tokens. -/
def pySplit (s : List Char) : List (List Char) :=
  (List.splitOnP (fun c => c.isWhitespace) s).filter (fun t => t ≠ [])

/-- The token scan of `get_num` (lines 143-150): for each token try
`float(part)` — modelled by `pf` — and on the first success return the
value, or `0.0` if it is at or above the overload sentinel; parse
failures (`except: pass`) fall through to the next token. -/
def get_num_scan (pf : List Char → Option ℚ) : List (List Char) → Option ℚ
  | [] => none
  | t :: ts =>
      match pf t with
      | some val => some (if OVERLOAD ≤ val then 0 else val)
      | none => get_num_scan pf ts

/-- `get_num(text)` (lines 139-151): `None` on `None`/empty input
(`if not text`), else scan the %-stripped whitespace-separated tokens. -/
def get_num (pf : List Char → Option ℚ) (text : Option (List Char)) : Option ℚ :=
  match text with
  | none => none
  | some s =>
      if s = [] then none
      else get_num_scan pf (pySplit (removePercent s))

end BGAParse

namespace NIAnalog

/-- `convert_to_engineering_units` (ni_analog_http.py lines 85-97):
convert the hardware range from A to mA, clamp the mA reading to it,
and scale linearly into `[eng_min, eng_max]`. -/
def convert_to_engineering_units
    (current_ma range_min_a range_max_a eng_min eng_max : ℚ) : ℚ :=
  let range_min := range_min_a * 1000
  let range_max := range_max_a * 1000
  let c := max range_min (min range_max current_ma)
  eng_min + (c - range_min) * (eng_max - eng_min) / (range_max - range_min)

end NIAnalog

namespace ExportCsv

/-! ### `MK1_AWE/data/export_csv.py` — `export_sensor_group`
The Flux query result (a pivoted dataframe) is the input `Frame`; the
UTC→America/Los_Angeles conversion (`tz_convert`, tzdata) and the
second-resolution part of `strftime('%Y-%m-%d %H:%M:%S.%f')` (calendar
rendering) are parameters `toLA` and `base`; the `%f` microsecond field
and the `[:-3]` cut to milliseconds are modelled exactly. -/

/-- `START_TIME_UTC` (test_config.py line 34): Nov 17 2025 12:41:30
America/Los_Angeles is outside DST (PST, UTC-8), so `astimezone(UTC)`
plus the `Z` rewrite yields this fixed string. -/
def START_TIME_UTC : String := "2025-11-17T20:41:30Z"

/-- `STOP_TIME_UTC` (test_config.py line 35), converted the same way. -/
def STOP_TIME_UTC : String := "2025-11-17T20:45:00Z"

/-- `DOWNSAMPLE_FUNCTION` (test_config.py line 43). -/
def DOWNSAMPLE_FUNCTION : String := "mean"

/-- `' or '.join([f'r.channel == "{ch}"' for ch in channels])`
(export_csv.py line 56). -/
def channelFilter (channels : List String) : String :=
  String.intercalate " or "
    (channels.map fun ch => "r.channel == \"" ++ ch ++ "\"")

/-- The lines of the channel-tag Flux query (export_csv.py lines
57-65). -/
def buildQueryLines (bucket measurement field_name : String)
    (channels : List String) (downsample_window : String) : List String :=
  ["from(bucket: \"" ++ bucket ++ "\")",
   "  |> range(start: " ++ START_TIME_UTC ++ ", stop: " ++ STOP_TIME_UTC ++ ")",
   "  |> filter(fn: (r) => r._measurement == \"" ++ measurement ++ "\")",
   "  |> filter(fn: (r) => r._field == \"" ++ field_name ++ "\")",
   "  |> filter(fn: (r) => " ++ channelFilter channels ++ ")",
   "  |> aggregateWindow(every: " ++ downsample_window ++ ", fn: " ++
     DOWNSAMPLE_FUNCTION ++ ", createEmpty: false)",
   "  |> pivot(rowKey:[\"_time\"], columnKey: [\"channel\"], valueColumn: \"_value\")"]

/-- The full query string sent to `query_data_frame`. -/
def buildQueryChannelTag (bucket measurement field_name : String)
    (channels : List String) (downsample_window : String) : String :=
  "\n" ++ String.intercalate "\n"
    (buildQueryLines bucket measurement field_name channels downsample_window)
    ++ "\n"

/-- A row of the pivoted query result: the `_time` value (UTC
nanoseconds) and one optional value per data column. -/
structure Row where
  time : ℤ
  cells : List (Option ℚ)
deriving DecidableEq, Repr

/-- The pivoted query result: `_time` plus named data columns. -/
structure Frame where
  dataCols : List String
  rows : List Row
deriving DecidableEq, Repr

structure CsvRow where
  timestamp : List Char
  cells : List (Option ℚ)
deriving DecidableEq, Repr

structure Csv where
  header : List String
  rows : List CsvRow
deriving DecidableEq, Repr

/-- The `%f` field: microseconds of a nanosecond timestamp. -/
def microOfNs (t : ℤ) : ℕ := ((t / 1000) % 1000000).toNat

/-- Zero-padded six-digit rendering of the `%f` field. -/
def pad6 (n : ℕ) : List Char :=
  [Nat.digitChar (n / 100000 % 10), Nat.digitChar (n / 10000 % 10),
   Nat.digitChar (n / 1000 % 10), Nat.digitChar (n / 100 % 10),
   Nat.digitChar (n / 10 % 10), Nat.digitChar (n % 10)]

/-- Zero-padded three-digit rendering (the millisecond field left after
the `[:-3]` cut). -/
def pad3 (n : ℕ) : List Char :=
  [Nat.digitChar (n / 100 % 10), Nat.digitChar (n / 10 % 10),
   Nat.digitChar (n % 10)]

/-- `dt.strftime('%Y-%m-%d %H:%M:%S.%f')`: the second-resolution part
`base` followed by the 6-digit microsecond field. -/
def strftimeMicro (base : ℤ → List Char) (tLocal : ℤ) : List Char :=
  base tLocal ++ '.' :: pad6 (microOfNs tLocal)

/-- `.str[:-3]`: drop the last three characters. -/
def dropRight3 (s : List Char) : List Char := s.take (s.length - 3)

/-- The `_time` transformation (export_csv.py lines 92-93): convert UTC
to America/Los_Angeles and format, cutting `%f` to milliseconds. -/
def exportTimestamp (toLA : ℤ → ℤ) (base : ℤ → List Char) (t : ℤ) :
    List Char :=
  dropRight3 (strftimeMicro base (toLA t))

/-- `keep_cols = ['_time'] + [col for col in df.columns if col in
channels]` (line 88), without the `_time` head. -/
def keepCols (df : Frame) (channels : List String) : List String :=
  df.dataCols.filter fun c => channels.contains c

/-- `df = df[keep_cols]` applied to one row's cells. -/
def selectCells (dataCols channels : List String)
    (cells : List (Option ℚ)) : List (Option ℚ) :=
  ((dataCols.zip cells).filter fun p => channels.contains p.1).map Prod.snd

/-- `export_sensor_group` (export_csv.py lines 41-133) applied to the
query result `df`: `None` on an empty result ("No data found"),
otherwise keep `_time` plus the requested channels, convert and format
the timestamps, rename `_time` to `timestamp`, and emit one CSV row per
result row. -/
def export_sensor_group (toLA : ℤ → ℤ) (base : ℤ → List Char)
    (df : Frame) (channels : List String) : Option Csv :=
  if df.rows.isEmpty then none
  else some
    { header := "timestamp" :: keepCols df channels,
      rows := df.rows.map fun r =>
        ⟨exportTimestamp toLA base r.time,
         selectCells df.dataCols channels r.cells⟩ }

/-- Witness data: the LA conversion for a PST instant (UTC-8). -/
def wToLA (t : ℤ) : ℤ := t - 28800000000000

/-- Witness data: a fixed second-resolution rendering. -/
def wBase (_ : ℤ) : List Char := "2025-11-17 12:41:30".data

/-- Witness data: a three-column query result with one row. -/
def wFrame : Frame :=
  ⟨["AI01", "other", "AI02"], [⟨28800123456000, [some 1, some 2, some 3]⟩]⟩

/-- Witness data: the requested channels. -/
def wChannels : List String := ["AI01", "AI02", "AI03"]

end ExportCsv

namespace Bridge

theorem dequeAppend_length (m : ℕ) (buf : List σ) (x : σ) :
    (dequeAppend m buf x).length = min (buf.length + 1) m := by
  rw [dequeAppend]
  split
  · rename_i h
    rw [List.length_drop, List.length_append, List.length_singleton]
    omega
  · rename_i h
    rw [List.length_append, List.length_singleton]
    omega

theorem dequeAppend_length_le (m : ℕ) (buf : List σ) (x : σ) :
    (dequeAppend m buf x).length ≤ m := by
  rw [dequeAppend_length]; omega

theorem dequeAppend_full_evicts (m : ℕ) (buf : List σ) (x : σ)
    (hfull : buf.length = m) (hm : 0 < m) :
    dequeAppend m buf x = buf.drop 1 ++ [x] := by
  rw [dequeAppend, if_pos (by omega)]
  have h1 : buf.length + 1 - m = 1 := by omega
  rw [h1, List.drop_append_of_le_length (by omega)]

theorem pollFold_pending (S B : ℕ) (batch : List σ) (st : BridgeState σ) :
    (batch.foldl (niAppendStep S B) st).pending_samples =
      st.pending_samples ++ batch ∧
    (batch.foldl (niAppendStep S B) st).written_batches =
      st.written_batches ∧
    (batch.foldl (niAppendStep S B) st).sample_buffer.length ≤
      max st.sample_buffer.length (S * B) := by
  induction batch generalizing st with
  | nil => simp
  | cons b bs ih =>
      rcases ih (niAppendStep S B st b) with ⟨h1, h2, h3⟩
      refine ⟨?_, ?_, ?_⟩
      · rw [List.foldl_cons, h1, niAppendStep]
        simp
      · rw [List.foldl_cons, h2, niAppendStep]
      · rw [List.foldl_cons]
        refine h3.trans ?_
        have : (niAppendStep S B st b).sample_buffer.length ≤ S * B := by
          rw [niAppendStep]
          exact dequeAppend_length_le _ _ _
        omega

end Bridge

namespace BGAParse

theorem get_num_scan_eq_head (pf : List Char → Option ℚ)
    (ts : List (List Char)) :
    get_num_scan pf ts =
      match (ts.filterMap pf).head? with
      | none => none
      | some v => some (if OVERLOAD ≤ v then 0 else v) := by
  induction ts with
  | nil => rfl
  | cons t ts ih =>
      rw [get_num_scan]
      cases h : pf t with
      | none => rw [List.filterMap_cons_none h, ih]
      | some v => rw [List.filterMap_cons_some h, List.head?_cons]

end BGAParse

namespace ExportCsv

theorem pad6_take_three (n : ℕ) : (pad6 n).take 3 = pad3 (n / 1000) := by
  show [Nat.digitChar (n / 100000 % 10), Nat.digitChar (n / 10000 % 10),
    Nat.digitChar (n / 1000 % 10)] = pad3 (n / 1000)
  rw [pad3, Nat.div_div_eq_div_mul, Nat.div_div_eq_div_mul]

theorem dropRight3_millis (base : List Char) (n : ℕ) :
    dropRight3 (base ++ '.' :: pad6 n) = base ++ '.' :: pad3 (n / 1000) := by
  rw [dropRight3]
  have hlen : (base ++ '.' :: pad6 n).length = base.length + 7 := by
    simp [pad6]
  rw [hlen]
  have h4 : base.length + 7 - 3 = base.length + 4 := by omega
  rw [h4, List.take_append_eq_append_take,
    List.take_of_length_le (by omega)]
  congr 1
  have h5 : base.length + 4 - base.length = 4 := by omega
  rw [h5]
  show ('.' :: (pad6 n).take 3) = '.' :: pad3 (n / 1000)
  rw [pad6_take_three]

theorem exportTimestamp_millis (toLA : ℤ → ℤ) (base : ℤ → List Char)
    (t : ℤ) :
    exportTimestamp toLA base t =
      base (toLA t) ++ '.' :: pad3 (microOfNs (toLA t) / 1000) := by
  rw [exportTimestamp, strftimeMicro, dropRight3_millis]

end ExportCsv

/-- Claim C1: `PSUClient.set_voltage_current(voltage, current)` writes the
safe state (0, 0, OFF) to registers 0x0101/0x0102/0x0103 when
voltage < 100 or current < 1, and otherwise writes
`int(min(voltage, 900)/0.1)`, `int(min(current, 100)/0.1)` and 1 (ON);
in every case the commanded voltage register never encodes more than
900 V and the current register never more than 100 A. -/
theorem psu_set_voltage_current_spec (voltage current : ℚ) :
    ((voltage < PSU.VOLTAGE_MIN ∨ current < PSU.CURRENT_MIN) →
        PSU.set_voltage_current voltage current =
          [⟨0x0101, 0⟩, ⟨0x0102, 0⟩, ⟨0x0103, 0⟩]) ∧
    (¬(voltage < PSU.VOLTAGE_MIN ∨ current < PSU.CURRENT_MIN) →
        PSU.set_voltage_current voltage current =
          [⟨0x0101, pyInt (min voltage PSU.VOLTAGE_MAX / (0.1 : ℚ))⟩,
           ⟨0x0102, pyInt (min current PSU.CURRENT_MAX / (0.1 : ℚ))⟩,
           ⟨0x0103, 1⟩]) ∧
    (∀ w ∈ PSU.set_voltage_current voltage current,
        (w.reg = 0x0101 → (w.val : ℚ) * (0.1 : ℚ) ≤ 900) ∧
        (w.reg = 0x0102 → (w.val : ℚ) * (0.1 : ℚ) ≤ 100)) := by
  have hsafe : (voltage < PSU.VOLTAGE_MIN ∨ current < PSU.CURRENT_MIN) →
      PSU.set_voltage_current voltage current =
        [⟨0x0101, 0⟩, ⟨0x0102, 0⟩, ⟨0x0103, 0⟩] := by
    intro h
    simp only [PSU.set_voltage_current, if_pos h]
    norm_num [pyInt]
  have hclamp : ¬(voltage < PSU.VOLTAGE_MIN ∨ current < PSU.CURRENT_MIN) →
      PSU.set_voltage_current voltage current =
        [⟨0x0101, pyInt (min voltage PSU.VOLTAGE_MAX / (0.1 : ℚ))⟩,
         ⟨0x0102, pyInt (min current PSU.CURRENT_MAX / (0.1 : ℚ))⟩,
         ⟨0x0103, 1⟩] := by
    intro h
    simp only [PSU.set_voltage_current, if_neg h]
  refine ⟨hsafe, hclamp, ?_⟩
  intro w hw
  by_cases h : voltage < PSU.VOLTAGE_MIN ∨ current < PSU.CURRENT_MIN
  · rw [hsafe h] at hw
    fin_cases hw <;> exact ⟨fun _ => by norm_num, fun _ => by norm_num⟩
  · rw [hclamp h] at hw
    push_neg at h
    have hv : (0:ℚ) ≤ min voltage PSU.VOLTAGE_MAX / (0.1 : ℚ) := by
      have h1 : (100:ℚ) ≤ voltage := h.1
      have h2 : (0:ℚ) ≤ min voltage PSU.VOLTAGE_MAX := by
        simp only [PSU.VOLTAGE_MAX, le_min_iff]
        constructor <;> linarith
      positivity
    have hi : (0:ℚ) ≤ min current PSU.CURRENT_MAX / (0.1 : ℚ) := by
      have h1 : (1:ℚ) ≤ current := h.2
      have h2 : (0:ℚ) ≤ min current PSU.CURRENT_MAX := by
        simp only [PSU.CURRENT_MAX, le_min_iff]
        constructor <;> linarith
      positivity
    have hvle : (pyInt (min voltage PSU.VOLTAGE_MAX / (0.1 : ℚ)) : ℚ) ≤ 9000 := by
      have h1 : min voltage PSU.VOLTAGE_MAX / (0.1 : ℚ) ≤ 9000 := by
        have h2 : min voltage PSU.VOLTAGE_MAX ≤ 900 := by
          simpa [PSU.VOLTAGE_MAX] using min_le_right voltage (900:ℚ)
        rw [div_le_iff₀ (by norm_num : (0:ℚ) < 0.1)]
        linarith
      rw [pyInt, if_pos hv]
      exact (Int.floor_le _).trans h1
    have hile : (pyInt (min current PSU.CURRENT_MAX / (0.1 : ℚ)) : ℚ) ≤ 1000 := by
      have h1 : min current PSU.CURRENT_MAX / (0.1 : ℚ) ≤ 1000 := by
        have h2 : min current PSU.CURRENT_MAX ≤ 100 := by
          simpa [PSU.CURRENT_MAX] using min_le_right current (100:ℚ)
        rw [div_le_iff₀ (by norm_num : (0:ℚ) < 0.1)]
        linarith
      rw [pyInt, if_pos hi]
      exact (Int.floor_le _).trans h1
    fin_cases hw
    · exact ⟨fun _ => by linarith, fun hreg => by simp at hreg⟩
    · exact ⟨fun hreg => by simp at hreg, fun _ => by linarith⟩
    · exact ⟨fun hreg => by simp at hreg, fun hreg => by simp at hreg⟩

/-- Claim C1 witness: at voltage 950 V, current 50 A the clamped writes
are 9000, 500, 1; at voltage 50 V the safe state is written. -/
theorem psu_set_voltage_current_spec_witness :
    (¬((950:ℚ) < PSU.VOLTAGE_MIN ∨ (50:ℚ) < PSU.CURRENT_MIN) ∧
      PSU.set_voltage_current 950 50 =
        [⟨0x0101, 9000⟩, ⟨0x0102, 500⟩, ⟨0x0103, 1⟩]) ∧
    (((50:ℚ) < PSU.VOLTAGE_MIN ∨ (5:ℚ) < PSU.CURRENT_MIN) ∧
      PSU.set_voltage_current 50 5 =
        [⟨0x0101, 0⟩, ⟨0x0102, 0⟩, ⟨0x0103, 0⟩]) := by
  have hne : ¬((950:ℚ) < PSU.VOLTAGE_MIN ∨ (50:ℚ) < PSU.CURRENT_MIN) := by
    simp only [PSU.VOLTAGE_MIN, PSU.CURRENT_MIN]; norm_num
  have hlt : ((50:ℚ) < PSU.VOLTAGE_MIN ∨ (5:ℚ) < PSU.CURRENT_MIN) := by
    simp only [PSU.VOLTAGE_MIN]; norm_num
  refine ⟨⟨hne, ?_⟩, ⟨hlt, (psu_set_voltage_current_spec 50 5).1 hlt⟩⟩
  rw [(psu_set_voltage_current_spec 950 50).2.1 hne]
  norm_num [pyInt, PSU.VOLTAGE_MAX, PSU.CURRENT_MAX]

/-- Claim C2: every relay toggle initiated from the GUI relay panel (any
relay id RL01..RL16, any boolean state) issues exactly the register
write for that relay with that state. -/
theorem relay_toggle_issues_register_write
    (rid : String) (h : rid ∈ Relay.relayIds) (state : Bool) :
    Relay.toggle_relay rid state = [⟨rid, state⟩] := rfl

/-- Claim C2 witness: toggling RL07 on issues the RL07 write. -/
theorem relay_toggle_issues_register_write_witness :
    "RL07" ∈ Relay.relayIds ∧
      Relay.toggle_relay "RL07" true = [⟨"RL07", true⟩] :=
  ⟨by decide, relay_toggle_issues_register_write "RL07" (by decide) true⟩

/-- Claim C5: in every bridge the ring buffer never holds more than
`SAMPLE_RATE * BUFFER_SECONDS` samples: appending to a full buffer
evicts the oldest sample, and the bound is preserved by every
single-sample poll iteration, every NI batch iteration, and every HTTP
read — each bridge's /metrics handler either copies the buffer
(BGA01, PSU, NI analog, TC-08) or clears it (BGA03), never grows it. -/
theorem bridge_buffer_bound_spec (σ : Type) (S B : ℕ) (st : Bridge.BridgeState σ)
    (h : st.sample_buffer.length ≤ S * B) :
    (∀ x : σ,
        (Bridge.dequeAppend (S * B) st.sample_buffer x).length ≤ S * B ∧
        (st.sample_buffer.length = S * B → 0 < S * B →
          Bridge.dequeAppend (S * B) st.sample_buffer x =
            st.sample_buffer.drop 1 ++ [x])) ∧
    (∀ r : Option σ, (Bridge.pollIter S B st r).sample_buffer.length ≤ S * B) ∧
    (∀ batch : List σ,
        (Bridge.pollIterNI S B st batch).sample_buffer.length ≤ S * B) ∧
    (∀ stb : Bridge.BridgeState Bridge.BGASample,
        stb.sample_buffer.length ≤ S * B →
        (Bridge.bga1_send_metrics stb).2.sample_buffer.length ≤ S * B ∧
        (Bridge.bga3_send_metrics stb).2.sample_buffer.length ≤ S * B) ∧
    (∀ stp : Bridge.BridgeState Bridge.PSUSample,
        stp.sample_buffer.length ≤ S * B →
        (Bridge.psu_metrics stp).2.sample_buffer.length ≤ S * B) ∧
    (∀ stn : Bridge.BridgeState Bridge.NISample,
        stn.sample_buffer.length ≤ S * B →
        (Bridge.ni_metrics stn).2.sample_buffer.length ≤ S * B) ∧
    (∀ stt : Bridge.BridgeState Bridge.TCSample,
        stt.sample_buffer.length ≤ S * B →
        (Bridge.tc08_metrics stt).2.sample_buffer.length ≤ S * B) := by
  refine ⟨fun x => ⟨Bridge.dequeAppend_length_le _ _ _,
    fun hfull hm => Bridge.dequeAppend_full_evicts _ _ _ hfull hm⟩,
    ?_, ?_, ?_, ?_, ?_, ?_⟩
  · intro r
    match r with
    | none => exact h
    | some s =>
        rw [Bridge.pollIter]
        split <;> exact Bridge.dequeAppend_length_le _ _ _
  · intro batch
    have h3 := (Bridge.pollFold_pending S B batch st).2.2
    rw [Bridge.pollIterNI]
    split
    · simp only
      omega
    · omega
  · intro stb hb
    constructor
    · rw [Bridge.bga1_send_metrics]
      split
      · exact hb
      · exact hb
    · rw [Bridge.bga3_send_metrics]
      split
      · exact hb
      · simp
  · intro stp hp
    rw [Bridge.psu_metrics]
    split
    · exact hp
    · split <;> exact hp
  · intro stn hn
    rw [Bridge.ni_metrics]
    split
    · exact hn
    · split <;> exact hn
  · intro stt ht
    rw [Bridge.tc08_metrics]
    split
    · exact ht
    · split <;> exact ht

/-- Claim C5 witness: with `SAMPLE_RATE = 2`, `BUFFER_SECONDS = 2` (the
BGA01 defaults) and a full 4-element buffer, appending sample 9 keeps
the length at 4 and evicts the oldest sample; an HTTP /metrics read of
a one-sample BGA state keeps the bound for both the copying (BGA01)
and the clearing (BGA03) handler. -/
theorem bridge_buffer_bound_spec_witness :
    ((⟨[5, 6, 7, 8], [], [], true⟩ :
        Bridge.BridgeState ℕ).sample_buffer.length ≤ 2 * 2) ∧
    Bridge.dequeAppend (2 * 2) [5, 6, 7, 8] 9 = [6, 7, 8, 9] ∧
    (Bridge.pollIter 2 2 (⟨[5, 6, 7, 8], [], [], true⟩ : Bridge.BridgeState ℕ)
        (some 9)).sample_buffer.length ≤ 2 * 2 ∧
    (Bridge.bga3CounterState.sample_buffer.length ≤ 2 * 2 ∧
      (Bridge.bga1_send_metrics Bridge.bga3CounterState).2.sample_buffer.length
        ≤ 2 * 2 ∧
      (Bridge.bga3_send_metrics Bridge.bga3CounterState).2.sample_buffer.length
        ≤ 2 * 2) := by
  have h := bridge_buffer_bound_spec ℕ 2 2
    (⟨[5, 6, 7, 8], [], [], true⟩ : Bridge.BridgeState ℕ) (by decide)
  have hm := h.2.2.2.1 Bridge.bga3CounterState (by decide)
  refine ⟨by decide, ?_, h.2.1 (some 9), by decide, hm.1, hm.2⟩
  have h2 := (h.1 9).2 (by decide) (by decide)
  simpa using h2

/-- Claim C6: samples go to InfluxDB only in batches: on every poll
iteration a flush happens exactly when the pending list reaches the
write batch size `SAMPLE_RATE`; the flush submits every pending sample
and leaves the pending list empty, so the pending list stays shorter
than the batch size at the start of every iteration. -/
theorem bridge_flush_batching_spec (σ : Type) (S B : ℕ) (hS : 0 < S)
    (st : Bridge.BridgeState σ) (h : st.pending_samples.length < S) :
    (∀ s : σ,
      ((Bridge.pollIter S B st (some s)).written_batches ≠ st.written_batches ↔
         st.pending_samples.length + 1 = S) ∧
      (st.pending_samples.length + 1 = S →
         (Bridge.pollIter S B st (some s)).written_batches =
           st.written_batches ++ [st.pending_samples ++ [s]] ∧
         (Bridge.pollIter S B st (some s)).pending_samples = []) ∧
      (Bridge.pollIter S B st (some s)).pending_samples.length < S) ∧
    ((Bridge.pollIter S B st none).pending_samples.length < S) ∧
    (∀ batch : List σ,
      ((Bridge.pollIterNI S B st batch).written_batches ≠ st.written_batches ↔
         S ≤ st.pending_samples.length + batch.length) ∧
      (S ≤ st.pending_samples.length + batch.length →
         (Bridge.pollIterNI S B st batch).written_batches =
           st.written_batches ++ [st.pending_samples ++ batch] ∧
         (Bridge.pollIterNI S B st batch).pending_samples = []) ∧
      (Bridge.pollIterNI S B st batch).pending_samples.length < S) := by
  have happend : ∀ (l : List (List σ)) (b : List σ), l ++ [b] ≠ l := by
    intro l b hle
    have := congrArg List.length hle
    simp at this
  refine ⟨?_, h, ?_⟩
  · intro s
    simp only [Bridge.pollIter, List.length_append, List.length_singleton]
    by_cases hlen : S ≤ st.pending_samples.length + 1
    · rw [if_pos hlen]
      refine ⟨⟨fun _ => by omega, fun _ => happend _ _⟩,
              fun _ => ⟨rfl, rfl⟩, by simpa using hS⟩
    · rw [if_neg hlen]
      refine ⟨⟨fun hne => absurd rfl hne, fun heq => absurd heq (by omega)⟩,
              fun heq => absurd heq (by omega), by simpa using hlen⟩
  · intro batch
    rcases Bridge.pollFold_pending S B batch st with ⟨h1, h2, _⟩
    simp only [Bridge.pollIterNI, h1, h2, List.length_append]
    by_cases hlen : S ≤ st.pending_samples.length + batch.length
    · rw [if_pos hlen]
      refine ⟨⟨fun _ => hlen, fun _ => happend _ _⟩,
              fun _ => ⟨rfl, rfl⟩, by simpa using hS⟩
    · rw [if_neg hlen]
      refine ⟨⟨fun hne => absurd h2 hne, fun heq => absurd heq hlen⟩,
              fun heq => absurd heq hlen, ?_⟩
      rw [h1]
      simpa using hlen

/-- Claim C6 witness: with `SAMPLE_RATE = 2` and one pending sample,
polling one more sample flushes both as a batch and empties the pending
list. -/
theorem bridge_flush_batching_spec_witness :
    (0 < 2 ∧ ([10] : List ℕ).length < 2) ∧
    (Bridge.pollIter 2 2 (⟨[10], [10], [], true⟩ : Bridge.BridgeState ℕ)
        (some 11)).written_batches = [[10, 11]] ∧
    (Bridge.pollIter 2 2 (⟨[10], [10], [], true⟩ : Bridge.BridgeState ℕ)
        (some 11)).pending_samples = [] := by
  have h := (bridge_flush_batching_spec ℕ 2 2 (by decide)
    (⟨[10], [10], [], true⟩ : Bridge.BridgeState ℕ) (by decide)).1 11
  have h2 := h.2.1 (by decide)
  exact ⟨⟨by decide, by decide⟩, by simpa using h2.1, h2.2⟩

/-- Claim C4 counterexample: not every hardware bridge exposes exactly
two HTTP endpoints — `BGA244_http_1` answers on three paths
(/metrics, /health, /command). -/
theorem bridge_two_endpoints_counterexample :
    ¬ (∀ hb ∈ Routes.bridges, hb.endpoints.length = 2) := by
  intro hall
  have h := hall Routes.BGA244_http_1 (List.mem_cons_self _ _)
  exact absurd h (by decide)

/-- Claim C4 (amended): every hardware bridge exposes at least two and
at most three HTTP endpoints, always including /metrics; the endpoint
list is exactly the set of (method, path) pairs its HTTP dispatch
answers without a 404. -/
theorem bridge_endpoint_count_spec :
    ∀ hb ∈ Routes.bridges,
      2 ≤ hb.endpoints.length ∧ hb.endpoints.length ≤ 3 ∧
      "/metrics" ∈ hb.endpoints ∧
      (∀ (m : Routes.Method) (p : String),
          hb.handles m p = true → p ∈ hb.endpoints) ∧
      (∀ p ∈ hb.endpoints, ∃ m, hb.handles m p = true) := by
  intro hb hmem
  fin_cases hmem <;>
    refine ⟨by decide, by decide, by decide, ?_, by decide⟩ <;>
    rintro (_ | _) p h <;>
    simp only [Routes.BGA244_http_1, Routes.BGA244_http_2,
      Routes.BGA244_http_3, Routes.psu_http, Routes.ni_analog_http,
      Routes.pico_tc08_http, Routes.bga1_handles, Routes.bga2_handles,
      Routes.bga3_handles, Routes.psu_handles, Routes.ni_handles,
      Routes.tc08_handles, Bool.or_eq_true, beq_iff_eq] at h ⊢ <;>
    first
      | (rcases h with h | h <;> simp [h])
      | simp [h]

/-- Claim C4 witness: BGA244_http_1 is a bridge with two-to-three
endpoints including /metrics, and its GET /health dispatch lands in the
endpoint list. -/
theorem bridge_endpoint_count_spec_witness :
    Routes.BGA244_http_1 ∈ Routes.bridges ∧
    2 ≤ Routes.BGA244_http_1.endpoints.length ∧
    Routes.BGA244_http_1.endpoints.length ≤ 3 ∧
    "/metrics" ∈ Routes.BGA244_http_1.endpoints ∧
    (Routes.BGA244_http_1.handles Routes.Method.get "/health" = true ∧
      "/health" ∈ Routes.BGA244_http_1.endpoints) := by
  have h := bridge_endpoint_count_spec Routes.BGA244_http_1
    (List.mem_cons_self _ _)
  exact ⟨List.mem_cons_self _ _, h.1, h.2.1, h.2.2.1,
    by decide, h.2.2.2.1 Routes.Method.get "/health" (by decide)⟩

/-- Claim C7 counterexample: a GET on /metrics is NOT state-preserving
on every bridge — BGA244_http_3's handler empties the sample buffer
(on an online state holding one sample, the buffer differs afterwards). -/
theorem bga3_metrics_clears_buffer_counterexample :
    (Bridge.bga3_send_metrics Bridge.bga3CounterState).2.sample_buffer ≠
      Bridge.bga3CounterState.sample_buffer := by
  decide

/-- Claim C7 (amended): on a GET /metrics with the device online and a
non-empty buffer, the BGA01, PSU, NI-analog and TC-08 bridges leave the
bridge state completely unchanged, while BGA03 empties the sample
buffer (touching nothing else); the PSU bridge emits exactly one line
per buffered sample and the NI bridge exactly one line per channel per
buffered sample, in buffer order, while the TC-08 bridge emits lines
only for valid channel readings and the BGA bridges only for samples
with at least one present numeric field, in buffer order. -/
theorem bridge_metrics_frame_spec
    (stB : Bridge.BridgeState Bridge.BGASample)
    (stP : Bridge.BridgeState Bridge.PSUSample)
    (stN : Bridge.BridgeState Bridge.NISample)
    (stT : Bridge.BridgeState Bridge.TCSample)
    (hB : stB.device_online = true) (hBne : stB.sample_buffer.length ≠ 0)
    (hP : stP.device_online = true) (hPne : stP.sample_buffer.length ≠ 0)
    (hN : stN.device_online = true) (hNne : stN.sample_buffer.length ≠ 0)
    (hT : stT.device_online = true) (hTne : stT.sample_buffer.length ≠ 0) :
    (Bridge.bga1_send_metrics stB).2 = stB ∧
    (Bridge.psu_metrics stP).2 = stP ∧
    (Bridge.ni_metrics stN).2 = stN ∧
    (Bridge.tc08_metrics stT).2 = stT ∧
    (Bridge.bga3_send_metrics stB).2 = { stB with sample_buffer := [] } ∧
    ((Bridge.psu_metrics stP).1 =
        some (stP.sample_buffer.map fun s => ⟨s.readings, s.timestamp_ns⟩) ∧
      ∀ ls, (Bridge.psu_metrics stP).1 = some ls →
        ls.length = stP.sample_buffer.length) ∧
    ((Bridge.ni_metrics stN).1 =
        some (stN.sample_buffer.flatMap fun s =>
          s.readings.map fun p => ⟨p.1, p.2.value, p.2.raw_ma, s.timestamp_ns⟩) ∧
      ∀ ls, (Bridge.ni_metrics stN).1 = some ls →
        ls.length = (stN.sample_buffer.map fun s => s.readings.length).sum) ∧
    (Bridge.tc08_metrics stT).1 =
        some (stT.sample_buffer.flatMap fun s =>
          s.readings.filterMap (Bridge.tcLine s.timestamp_ns)) ∧
    (Bridge.bga1_send_metrics stB).1 =
        some (stB.sample_buffer.filterMap Bridge.bgaLine) := by
  have hBcond : ¬(stB.device_online = false ∨ stB.sample_buffer.length = 0) := by
    rw [hB]; simp [hBne]
  refine ⟨?_, ?_, ?_, ?_, ?_, ⟨?_, ?_⟩, ⟨?_, ?_⟩, ?_, ?_⟩
  · rw [Bridge.bga1_send_metrics, if_neg hBcond]
  · rw [Bridge.psu_metrics, hP]
    simp [hPne]
  · rw [Bridge.ni_metrics, hN]
    simp [hNne]
  · rw [Bridge.tc08_metrics, hT]
    simp [hTne]
  · rw [Bridge.bga3_send_metrics, if_neg hBcond]
  · rw [Bridge.psu_metrics, hP]
    simp [hPne]
  · intro ls hls
    rw [Bridge.psu_metrics, hP] at hls
    simp only [Bool.true_eq_false, if_false, if_neg hPne] at hls
    cases hls
    exact List.length_map _ _
  · rw [Bridge.ni_metrics, hN]
    simp [hNne]
  · intro ls hls
    rw [Bridge.ni_metrics, hN] at hls
    simp only [Bool.true_eq_false, if_false, if_neg hNne] at hls
    cases hls
    rw [List.length_flatMap]
    simp [Function.comp_def]
  · rw [Bridge.tc08_metrics, hT]
    simp [hTne]
  · rw [Bridge.bga1_send_metrics, if_neg hBcond]

/-- Claim C7 witness: concrete online single-sample states for all four
buffer types; BGA01 leaves its state unchanged while BGA03 empties the
buffer, and the PSU output has exactly one line for its one sample. -/
theorem bridge_metrics_frame_spec_witness :
    ((Bridge.bga3CounterState.device_online = true ∧
        Bridge.bga3CounterState.sample_buffer.length ≠ 0) ∧
      (Bridge.bga1_send_metrics Bridge.bga3CounterState).2 =
        Bridge.bga3CounterState ∧
      (Bridge.bga3_send_metrics Bridge.bga3CounterState).2.sample_buffer = []) ∧
    ∀ ls, (Bridge.psu_metrics
        (⟨[⟨7, ⟨1, 2, 3, 4, 5, 6, 0, 0, 20, 1, 1, 2, 1⟩⟩], [], [], true⟩ :
          Bridge.BridgeState Bridge.PSUSample)).1 = some ls → ls.length = 1 := by
  have h := bridge_metrics_frame_spec
    Bridge.bga3CounterState
    (⟨[⟨7, ⟨1, 2, 3, 4, 5, 6, 0, 0, 20, 1, 1, 2, 1⟩⟩], [], [], true⟩ :
      Bridge.BridgeState Bridge.PSUSample)
    (⟨[⟨7, [("AI01", ⟨50, 12⟩)]⟩], [], [], true⟩ :
      Bridge.BridgeState Bridge.NISample)
    (⟨[⟨7, [("TC01", ⟨some 21, "K", true⟩)]⟩], [], [], true⟩ :
      Bridge.BridgeState Bridge.TCSample)
    rfl (by decide) rfl (by decide) rfl (by decide) rfl (by decide)
  refine ⟨⟨⟨rfl, by decide⟩, h.1, ?_⟩, fun ls hls => ?_⟩
  · rw [h.2.2.2.2.1]
  · have := h.2.2.2.2.2.1.2 ls hls
    simpa using this

/-- Claim C8: no bridge poll loop terminates on a device error — every
vendor exception is caught and yields a normal next state; that state
has `device_online = false` and a scheduled `RECONNECT_DELAY = 5`
second wait, after which the connection is retried; and once offline,
`device_online` turns true again only on a successful vendor
interaction (connect for the BGA bridges, read otherwise). -/
theorem bridge_retry_loop_spec (oc : Bool) (st : Retry.LoopState) :
    (∀ e, ∃ st2, Retry.retryStep oc st e = Except.ok st2) ∧
    Retry.retryStep oc st .vendorErr =
      Except.ok ⟨.backoff, false, Retry.RECONNECT_DELAY⟩ ∧
    Retry.RECONNECT_DELAY = 5 ∧
    Retry.retryStep oc ⟨.backoff, false, Retry.RECONNECT_DELAY⟩ .delayElapsed =
      Except.ok ⟨.connecting, false, 0⟩ ∧
    (∀ e st2, st.device_online = false →
        Retry.retryStep oc st e = Except.ok st2 →
        st2.device_online = true →
        (e = Retry.VendorEvent.connectOk ∨ e = Retry.VendorEvent.readOk)) := by
  obtain ⟨ph, o, w⟩ := st
  refine ⟨?_, ?_, rfl, rfl, ?_⟩
  · intro e
    cases e <;> cases ph <;> exact ⟨_, rfl⟩
  · cases ph <;> rfl
  · intro e st2 ho hstep honline
    cases e <;> cases ph <;>
      simp only [Retry.retryStep, Except.ok.injEq] at hstep <;>
      first
        | (left; rfl)
        | (right; rfl)
        | (exfalso; subst hstep; simp_all)

/-- Claim C8 witness: from a polling state a vendor error moves the
loop to backoff/offline with a 5 s wait; from an offline connecting
state only a successful connect turns `device_online` back on. -/
theorem bridge_retry_loop_spec_witness :
    (Retry.retryStep true ⟨.polling, true, 0⟩ .vendorErr =
      Except.ok ⟨.backoff, false, Retry.RECONNECT_DELAY⟩) ∧
    ((⟨.connecting, false, 0⟩ : Retry.LoopState).device_online = false ∧
      Retry.retryStep true ⟨.connecting, false, 0⟩ .connectOk =
        Except.ok ⟨.polling, true, 0⟩ ∧
      (Retry.VendorEvent.connectOk = Retry.VendorEvent.connectOk ∨
        Retry.VendorEvent.connectOk = Retry.VendorEvent.readOk)) := by
  refine ⟨(bridge_retry_loop_spec true ⟨.polling, true, 0⟩).2.1, rfl, rfl, ?_⟩
  exact (bridge_retry_loop_spec true ⟨.connecting, false, 0⟩).2.2.2.2
    Retry.VendorEvent.connectOk ⟨.polling, true, 0⟩ rfl rfl rfl

/-- Claim C9: for every BGA response string, `get_num` returns the first
whitespace-separated token (after removing `%` characters) that parses
as a float, except that a parsed value at or above the overload
sentinel 9.9e37 is returned as 0.0; it returns `None` when the input is
`None`/empty or no token parses. -/
theorem bga_get_num_spec (pf : List Char → Option ℚ)
    (text : Option (List Char)) :
    BGAParse.get_num pf text =
      match text with
      | none => none
      | some s =>
          if s = [] then none
          else
            match ((BGAParse.pySplit (BGAParse.removePercent s)).filterMap pf).head? with
            | none => none
            | some v => some (if BGAParse.OVERLOAD ≤ v then 0 else v) := by
  cases text with
  | none => rfl
  | some s =>
      simp only [BGAParse.get_num]
      by_cases h : s = []
      · rw [if_pos h, if_pos h]
      · rw [if_neg h, if_neg h, BGAParse.get_num_scan_eq_head]

/-- Claim C10: for every current reading and channel configuration with
`range_min < range_max` and `eng_min <= eng_max`, the converted value
lies in `[eng_min, eng_max]`, equals `eng_min` at or below the range
minimum, and equals `eng_max` at or above the range maximum. -/
theorem ni_convert_units_spec
    (current_ma range_min_a range_max_a eng_min eng_max : ℚ)
    (hr : range_min_a < range_max_a) (he : eng_min ≤ eng_max) :
    eng_min ≤ NIAnalog.convert_to_engineering_units
        current_ma range_min_a range_max_a eng_min eng_max ∧
    NIAnalog.convert_to_engineering_units
        current_ma range_min_a range_max_a eng_min eng_max ≤ eng_max ∧
    (current_ma ≤ range_min_a * 1000 →
      NIAnalog.convert_to_engineering_units
          current_ma range_min_a range_max_a eng_min eng_max = eng_min) ∧
    (range_max_a * 1000 ≤ current_ma →
      NIAnalog.convert_to_engineering_units
          current_ma range_min_a range_max_a eng_min eng_max = eng_max) := by
  set rmin := range_min_a * 1000 with hrmin
  set rmax := range_max_a * 1000 with hrmax
  have hltm : rmin < rmax := by
    rw [hrmin, hrmax]
    linarith
  set c := max rmin (min rmax current_ma) with hc
  have hc1 : rmin ≤ c := le_max_left _ _
  have hc2 : c ≤ rmax := by
    rw [hc]
    exact max_le (le_of_lt hltm) (min_le_left _ _)
  have hval : NIAnalog.convert_to_engineering_units
      current_ma range_min_a range_max_a eng_min eng_max
      = eng_min + (c - rmin) * (eng_max - eng_min) / (rmax - rmin) := rfl
  have hne : rmax - rmin ≠ 0 := by linarith
  refine ⟨?_, ?_, ?_, ?_⟩
  · rw [hval]
    have h0 : 0 ≤ (c - rmin) * (eng_max - eng_min) / (rmax - rmin) :=
      div_nonneg (mul_nonneg (by linarith) (by linarith)) (by linarith)
    linarith
  · rw [hval]
    have h2 : (c - rmin) * (eng_max - eng_min) / (rmax - rmin) ≤
        eng_max - eng_min := by
      rw [div_le_iff₀ (by linarith : (0:ℚ) < rmax - rmin)]
      nlinarith
    linarith
  · intro hlo
    have hmle : min rmax current_ma ≤ rmin := by
      refine le_trans (min_le_right _ _) ?_
      rw [hrmin]
      exact hlo
    have hcc : c = rmin := by
      rw [hc]
      exact max_eq_left hmle
    rw [hval, hcc]
    ring
  · intro hhi
    have hcc : c = rmax := by
      rw [hc, min_eq_left (by rw [hrmax]; exact hhi)]
      exact max_eq_right (le_of_lt hltm)
    rw [hval, hcc]
    field_simp
/-- Claim C10 witness: a 4-20 mA channel mapped to 0..100 engineering
units keeps a 12 mA reading inside [0, 100] and pins a 2 mA reading to
the range minimum 0. -/
theorem ni_convert_units_spec_witness :
    ((0.004:ℚ) < 0.02 ∧ (0:ℚ) ≤ 100) ∧
    (0:ℚ) ≤ NIAnalog.convert_to_engineering_units 12 0.004 0.02 0 100 ∧
    NIAnalog.convert_to_engineering_units 12 0.004 0.02 0 100 ≤ 100 ∧
    NIAnalog.convert_to_engineering_units 2 0.004 0.02 0 100 = 0 := by
  have h1 := ni_convert_units_spec 12 0.004 0.02 0 100 (by norm_num) (by norm_num)
  have h2 := ni_convert_units_spec 2 0.004 0.02 0 100 (by norm_num) (by norm_num)
  exact ⟨⟨by norm_num, by norm_num⟩, h1.1, h1.2.1, h2.2.2.1 (by norm_num)⟩

/-- Claim C3: for every sensor-group export, the written CSV has exactly
one row per point of the query result, its columns are exactly the
timestamp column plus the requested channels appearing in the result
(others dropped), each row's timestamp is the query timestamp converted
from UTC to America/Los_Angeles and formatted with millisecond
precision, and the issued Flux query ranges over
[START_TIME_UTC, STOP_TIME_UTC] with the configured aggregateWindow
downsampling. -/
theorem export_sensor_group_spec (toLA : ℤ → ℤ) (base : ℤ → List Char)
    (df : ExportCsv.Frame) (channels : List String)
    (hne : df.rows ≠ []) :
    (∃ out, ExportCsv.export_sensor_group toLA base df channels = some out ∧
      out.header =
        "timestamp" :: df.dataCols.filter (fun c => channels.contains c) ∧
      out.rows.length = df.rows.length ∧
      (∀ i, i < df.rows.length →
        ∃ r, df.rows[i]? = some r ∧
          out.rows[i]? = some
            ⟨base (toLA r.time) ++ '.' ::
                ExportCsv.pad3 (ExportCsv.microOfNs (toLA r.time) / 1000),
             ExportCsv.selectCells df.dataCols channels r.cells⟩)) ∧
    (∀ bucket measurement field_name window,
      ("  |> range(start: " ++ ExportCsv.START_TIME_UTC ++ ", stop: " ++
          ExportCsv.STOP_TIME_UTC ++ ")") ∈
        ExportCsv.buildQueryLines bucket measurement field_name channels window ∧
      ("  |> aggregateWindow(every: " ++ window ++ ", fn: " ++
          ExportCsv.DOWNSAMPLE_FUNCTION ++ ", createEmpty: false)") ∈
        ExportCsv.buildQueryLines bucket measurement field_name channels window) := by
  constructor
  · refine ⟨⟨"timestamp" :: ExportCsv.keepCols df channels,
        df.rows.map fun r =>
          ⟨ExportCsv.exportTimestamp toLA base r.time,
           ExportCsv.selectCells df.dataCols channels r.cells⟩⟩, ?_, rfl,
      by simp, ?_⟩
    · rw [ExportCsv.export_sensor_group,
        if_neg (by simpa using hne)]
    · intro i hi
      refine ⟨df.rows.get ⟨i, hi⟩, ?_, ?_⟩
      · rw [List.getElem?_eq_getElem hi]
        rfl
      · rw [List.getElem?_eq_getElem (by simpa using hi)]
        simp only [List.getElem_map]
        rw [ExportCsv.exportTimestamp_millis]
        rfl
  · intro bucket measurement field_name window
    constructor
    · simp [ExportCsv.buildQueryLines]
    · simp [ExportCsv.buildQueryLines]

/-- Claim C3 witness: a one-row, three-column query result exported for
channels AI01/AI02/AI03 yields a CSV with header timestamp, AI01, AI02
and exactly one row. -/
theorem export_sensor_group_spec_witness :
    ExportCsv.wFrame.rows ≠ [] ∧
    (∃ out, ExportCsv.export_sensor_group ExportCsv.wToLA ExportCsv.wBase
        ExportCsv.wFrame ExportCsv.wChannels = some out ∧
      out.header = ["timestamp", "AI01", "AI02"] ∧
      out.rows.length = 1) := by
  have h := export_sensor_group_spec ExportCsv.wToLA ExportCsv.wBase
    ExportCsv.wFrame ExportCsv.wChannels (by decide)
  obtain ⟨⟨out, hout, hhead, hlen, _⟩, _⟩ := h
  refine ⟨by decide, out, hout, ?_, ?_⟩
  · rw [hhead]
    decide
  · rw [hlen]
    decide
